import Mathlib

/-!
Shallow embedding of the CSV-classification core of the
`python-magic-py3.11-aws-lambda` repository.

Bytes are modelled as `List Nat` (each entry < 256), decoded text as
`List Char` (Unicode code points), and MIME labels as `String`.
The two detector variants (`lambda_function.py`, backed by libmagic, and
`lambda_function_puremagic.py`, backed by puremagic) share the CSV content
heuristic; the external detector libraries themselves are not part of the
repository, so their outputs (signature label, secondary buffer detection)
enter the model as parameters of the classification functions.
-/

/-- Convert a Lean string literal to the `List Char` text representation. -/
def chars (s : String) : List Char := s.data

/-- ASCII test data helper: the byte sequence of an ASCII string. -/
def asciiBytes (s : String) : List Nat := s.data.map Char.toNat

/-- Code points that Python's `str.strip()` removes (Unicode whitespace). -/
def pyWhitespace : List Nat :=
  [9, 10, 11, 12, 13, 28, 29, 30, 31, 32, 0x85, 0xA0, 0x1680,
   0x2000, 0x2001, 0x2002, 0x2003, 0x2004, 0x2005, 0x2006, 0x2007,
   0x2008, 0x2009, 0x200A, 0x2028, 0x2029, 0x202F, 0x205F, 0x3000]

/-- Whether Python's `str.strip()` treats the character as whitespace. -/
def pyIsSpace (c : Char) : Bool := pyWhitespace.contains c.toNat

/-- Python `str.strip()`: drop leading and trailing whitespace. -/
def pyStrip (s : List Char) : List Char :=
  ((s.dropWhile pyIsSpace).reverse.dropWhile pyIsSpace).reverse

/-- Python `str.split('\n')`: split at every newline; `""` yields `[""]`. -/
def splitOnNewline : List Char → List (List Char)
  | [] => [[]]
  | c :: rest =>
    if c = '\n' then [] :: splitOnNewline rest
    else
      match splitOnNewline rest with
      | [] => [[c]]
      | l :: ls => (c :: l) :: ls

/-- Python `str.lower()` restricted to the ASCII range (A-Z map to a-z). -/
def pyLowerChar (c : Char) : Char :=
  if 'A' ≤ c ∧ c ≤ 'Z' then Char.ofNat (c.toNat + 32) else c

/-- Characterwise lowering of a text, Python `str.lower()`. -/
def pyLower (s : List Char) : List Char := s.map pyLowerChar

/-- Python `needle in hay` on strings: contiguous substring test. -/
def containsSub (hay needle : List Char) : Bool :=
  hay.tails.any (fun t => needle.isPrefixOf t)

/-- Python `s.startswith(pre)`, on the `String` MIME labels of the model. -/
def strStartsWith (s pre : String) : Bool := pre.data.isPrefixOf s.data

/-- Strict UTF-8 decoding of a byte sequence, as Python's
`bytes.decode('utf-8')`: rejects stray continuation bytes, overlong
encodings, surrogate code points and code points above U+10FFFF; returns
`none` exactly when Python raises `UnicodeDecodeError`. -/
def utf8Decode : List Nat → Option (List Char)
  | [] => some []
  | b :: rest =>
    if b < 0x80 then
      (utf8Decode rest).map (fun cs => Char.ofNat b :: cs)
    else if b < 0xC2 then none
    else if b < 0xE0 then
      match rest with
      | b1 :: rest1 =>
        if 0x80 ≤ b1 ∧ b1 < 0xC0 then
          (utf8Decode rest1).map
            (fun cs => Char.ofNat ((b - 0xC0) * 0x40 + (b1 - 0x80)) :: cs)
        else none
      | [] => none
    else if b < 0xF0 then
      match rest with
      | b1 :: b2 :: rest2 =>
        if (0x80 ≤ b1 ∧ b1 < 0xC0) ∧ (0x80 ≤ b2 ∧ b2 < 0xC0) then
          let cp := (b - 0xE0) * 0x1000 + (b1 - 0x80) * 0x40 + (b2 - 0x80)
          if 0x800 ≤ cp ∧ ¬(0xD800 ≤ cp ∧ cp ≤ 0xDFFF) then
            (utf8Decode rest2).map (fun cs => Char.ofNat cp :: cs)
          else none
        else none
      | _ => none
    else if b < 0xF5 then
      match rest with
      | b1 :: b2 :: b3 :: rest3 =>
        if (0x80 ≤ b1 ∧ b1 < 0xC0) ∧ (0x80 ≤ b2 ∧ b2 < 0xC0) ∧
            (0x80 ≤ b3 ∧ b3 < 0xC0) then
          let cp := (b - 0xF0) * 0x40000 + (b1 - 0x80) * 0x1000 +
            (b2 - 0x80) * 0x40 + (b3 - 0x80)
          if 0x10000 ≤ cp ∧ cp ≤ 0x10FFFF then
            (utf8Decode rest3).map (fun cs => Char.ofNat cp :: cs)
          else none
        else none
      | _ => none
    else none

/-- MIME types the code accepts as already-CSV
(`csv_mimetypes` in both lambda files). -/
def csvMimetypes : List String :=
  ["text/csv", "application/csv", "text/comma-separated-values"]

/-- Keyword set of the content-pattern hint
(both lambda files, `any(keyword in content_str.lower()[:200] ...)`). -/
def csvKeywords : List (List Char) :=
  [chars "name,", chars "id,", chars "date,", chars ",value",
   chars ",count", chars ",amount"]

/-- Python truthiness of the `Optional[str]` detector label:
`None` and the empty string are falsy. -/
def truthy : Option (List Char) → Bool
  | none => false
  | some s => !s.isEmpty

/-- Non-empty trimmed lines of the content
(`lambda_function_puremagic.py` lines 134-137, identically
`lambda_function.py` lines 178-181):
`lines = content_str.strip().split('\n')`,
`non_empty_lines = [line.strip() for line in lines if line.strip()]`. -/
def nonEmptyLines (content_str : List Char) : List (List Char) :=
  (splitOnNewline (pyStrip content_str)).filterMap
    (fun line => if pyStrip line = [] then none else some (pyStrip line))

/-- `csv_criteria_met` of both lambda files
(`lambda_function_puremagic.py` lines 141-163, `lambda_function.py`
lines 185-208).  The boolean `csv_detected_by_magic` is the extra hint of
the libmagic variant (`lambda_function.py` line 205); the puremagic
variant has no such hint, i.e. passes `false`.  The Python comparisons
`comma_lines >= total_lines * 0.8` and
`consistent_comma_lines >= total_lines * 0.7` are modelled exactly over
the rationals 4/5 and 7/10, cleared to the integer inequalities
`4·total ≤ 5·comma_lines` and `7·total ≤ 10·consistent`; for any line
count that fits in an IEEE double's mantissa the float comparison of the
source agrees with the exact rational one, since `n * 0.8` and `n * 0.7`
never round strictly above the exact products' ceilings. -/
def csvCriteriaMet (content_str filename : List Char)
    (csv_detected_by_magic : Bool) : Bool :=
  let non_empty_lines := nonEmptyLines content_str
  let comma_counts := non_empty_lines.map (fun line => line.count ',')
  let comma_lines := (comma_counts.filter (fun count => 0 < count)).length
  let total_lines := non_empty_lines.length
  let header_commas := comma_counts.headD 0
  let consistent_comma_lines :=
    (comma_counts.filter (fun count => count = header_commas)).length
  decide (4 * total_lines ≤ 5 * comma_lines) &&
  decide ((1 : ℕ) ≤ header_commas) &&
  decide (7 * total_lines ≤ 10 * consistent_comma_lines) &&
  ((chars ".csv").isSuffixOf (pyLower filename) ||
   csv_detected_by_magic ||
   csvKeywords.any (fun keyword =>
     containsSub ((pyLower content_str).take 200) keyword))

/-- The guarded content-analysis block of both lambda files: whether the
CSV criteria fire, under the two line-count gates
(`if len(lines) >= 2:` then `if len(non_empty_lines) >= 2:`); when either
gate fails, nothing fires and `is_csv` is left unchanged. -/
def contentCsvAnalysis (content_str filename : List Char)
    (csv_detected_by_magic : Bool) : Bool :=
  if 2 ≤ (splitOnNewline (pyStrip content_str)).length then
    if 2 ≤ (nonEmptyLines content_str).length then
      csvCriteriaMet content_str filename csv_detected_by_magic
    else false
  else false

/-- MIME derivation of the puremagic variant
(`lambda_function_puremagic.py` lines 82-112): start from
`application/octet-stream`; when the detector label is truthy, map it by
keyword search over its lowercased text (pdf, jpeg/jpg, png, text, html,
xml, json, in that order); when the label is falsy, probe the full buffer
for UTF-8 decodability (`text/plain` on success, octet-stream on
failure). -/
def deriveMimetype (detected_type : Option (List Char))
    (file_content : List Nat) : String :=
  let mapped :=
    if truthy detected_type then
      let type_lower := pyLower (detected_type.getD [])
      if containsSub type_lower (chars "pdf") then "application/pdf"
      else if containsSub type_lower (chars "jpeg") ||
          containsSub type_lower (chars "jpg") then "image/jpeg"
      else if containsSub type_lower (chars "png") then "image/png"
      else if containsSub type_lower (chars "text") then "text/plain"
      else if containsSub type_lower (chars "html") then "text/html"
      else if containsSub type_lower (chars "xml") then "application/xml"
      else if containsSub type_lower (chars "json") then "application/json"
      else "application/octet-stream"
    else "application/octet-stream"
  if !truthy detected_type then
    match utf8Decode file_content with
    | some _ => "text/plain"
    | none => "application/octet-stream"
  else mapped

/-- Verdict fields of the puremagic variant
(`lambda_function_puremagic.py` lines 119-172): `is_csv` starts as
membership of the derived MIME in `csvMimetypes`; when the MIME is
`text/plain` or starts with `text/`, the content is decoded as UTF-8
(decode failure forces `is_csv = False`) and the CSV analysis may set
`is_csv = True` and override the MIME to `text/csv`. -/
def classifyCore (detected_type : Option (List Char))
    (file_content : List Nat) (filename : List Char) : Bool × String :=
  let detected_mimetype := deriveMimetype detected_type file_content
  let is_csv := csvMimetypes.contains detected_mimetype
  if detected_mimetype = "text/plain" ||
      strStartsWith detected_mimetype "text/" then
    match utf8Decode file_content with
    | some content_str =>
      if contentCsvAnalysis content_str filename false then
        (true, "text/csv")
      else (is_csv, detected_mimetype)
    | none => (false, detected_mimetype)
  else (is_csv, detected_mimetype)

/-- Externally visible result of the puremagic variant: the verdict
fields plus the diagnostic `puremagic_details` payload
(`lambda_function_puremagic.py` lines 114-117 and 174-183). -/
structure Verdict where
  is_csv : Bool
  mimetype : String
  file_detection : Option (List Char)
  buffer_detection : Option (List Char)
deriving DecidableEq, Repr

/-- Full classification of the puremagic variant.  `detected_type` and
`buffer_type` are the two outputs of the external puremagic library
(`None` models the exception branches of lines 65-78); `buffer_type`
flows only into the diagnostic payload. -/
def classifyPure (detected_type buffer_type : Option (List Char))
    (file_content : List Nat) (filename : List Char) : Verdict :=
  let core := classifyCore detected_type file_content filename
  ⟨core.1, core.2, detected_type, buffer_type⟩

/-- Verdict fields of the libmagic variant (`lambda_function.py`). -/
structure MagicVerdict where
  is_csv : Bool
  mimetype : String
deriving DecidableEq, Repr

/-- Secondary buffer-based detection of the libmagic variant
(`lambda_function.py` lines 151-173): when the alternative magic call
succeeded and either its MIME or its description contains `csv`
(case-folded), set `csv_detected_by_magic` and override the MIME to
`text/csv`; on exception (`alt = none`) leave both unchanged. -/
def magicAltOverride (detected_mimetype : String)
    (alt : Option (String × String)) : Bool × String :=
  match alt with
  | some bd =>
    if containsSub (pyLower bd.1.data) (chars "csv") ||
        containsSub (pyLower bd.2.data) (chars "csv") then
      (true, "text/csv")
    else (false, detected_mimetype)
  | none => (false, detected_mimetype)

/-- Classification of the libmagic variant
(`lambda_function.py` lines 128-226).  `detected_mimetype` is the output
of the external libmagic signature stage, `alt` the result of the
secondary buffer-based magic call (mime, description), `none` when that
call raised.  Note the variant sets `is_csv = True` on criteria success
but does not override the returned MIME there (lines 210-212). -/
def classifyMagic (detected_mimetype : String)
    (alt : Option (String × String)) (file_content : List Nat)
    (filename : List Char) : MagicVerdict :=
  let is_csv := csvMimetypes.contains detected_mimetype
  if detected_mimetype = "text/plain" ||
      strStartsWith detected_mimetype "text/" then
    let over := magicAltOverride detected_mimetype alt
    match utf8Decode file_content with
    | some content_str =>
      if contentCsvAnalysis content_str filename over.1 then
        ⟨true, over.2⟩
      else ⟨is_csv, over.2⟩
    | none => ⟨false, over.2⟩
  else ⟨is_csv, detected_mimetype⟩


/-! ## Spec-side formulations

The following definitions restate the quantities of spec §4.3 in the
spec's own vocabulary (counts of lines satisfying predicates, occurrence
relations), to be compared against the code-side definitions above.
Percentage thresholds are written as `80·total ≤ 100·count` and
`70·total ≤ 100·count`, the exact rational readings of "at least 80%"
and "at least 70%". -/

/-- Spec reading: the number of non-empty lines with at least one comma. -/
def specCommaLineCount (nel : List (List Char)) : Nat :=
  nel.countP (fun line => 1 ≤ line.count ',')

/-- Spec reading: the comma count of the first (header) line. -/
def specHeaderCommas (nel : List (List Char)) : Nat :=
  (nel.headD []).count ','

/-- Spec reading: the number of lines whose comma count equals the
header's comma count. -/
def specConsistentCount (nel : List (List Char)) : Nat :=
  nel.countP (fun line => line.count ',' = (nel.headD []).count ',')

/-- Spec reading of the filename hint: the lowercased filename ends in
`.csv`. -/
def specFilenameHint (filename : List Char) : Prop :=
  chars ".csv" <:+ pyLower filename

/-- Spec reading of the keyword hint: one of the fixed keywords occurs in
the first 200 characters of the lowercased text. -/
def specKeywordHint (content_str : List Char) : Prop :=
  ∃ keyword ∈ csvKeywords, keyword <:+: (pyLower content_str).take 200

/-- Spec reading of the whole CSV declaration (spec §4.3 step 5), with
the secondary-magic flag of the libmagic variant as an extra hint
(`false` in the puremagic variant). -/
def specCsvDeclared (content_str filename : List Char)
    (magicFlag : Bool) : Prop :=
  80 * (nonEmptyLines content_str).length ≤
      100 * specCommaLineCount (nonEmptyLines content_str) ∧
  1 ≤ specHeaderCommas (nonEmptyLines content_str) ∧
  70 * (nonEmptyLines content_str).length ≤
      100 * specConsistentCount (nonEmptyLines content_str) ∧
  (specFilenameHint filename ∨ magicFlag = true ∨
    specKeywordHint content_str)

/-- The mapping keywords searched in the detector label by the puremagic
variant's MIME derivation. -/
def mapperKeywords : List (List Char) :=
  [chars "pdf", chars "jpeg", chars "jpg", chars "png", chars "text",
   chars "html", chars "xml", chars "json"]

/-- The complete set of MIME strings the puremagic variant can return. -/
def mimeOutputs : List String :=
  ["application/pdf", "image/jpeg", "image/png", "text/plain",
   "text/html", "application/xml", "application/json",
   "application/octet-stream", "text/csv"]

/-! ## Helper lemmas -/

/-- `containsSub` decides contiguous-substring occurrence. -/
theorem containsSub_eq_true_iff {hay needle : List Char} :
    containsSub hay needle = true ↔ needle <:+: hay := by
  unfold containsSub
  rw [List.any_eq_true]
  constructor
  · rintro ⟨t, ht, hp⟩
    rw [List.mem_tails] at ht
    exact List.IsInfix.trans
      (List.IsPrefix.isInfix (( List.isPrefixOf_iff_prefix).mp hp))
      (List.IsSuffix.isInfix ht)
  · intro h
    rcases ( List.infix_iff_prefix_suffix).mp h with ⟨t, hpre, hsuf⟩
    exact ⟨t, (List.mem_tails t hay).mpr hsuf,
      ( List.isPrefixOf_iff_prefix).mpr hpre⟩

/-- The code's filtered comma-line count equals the spec's count of lines
with at least one comma. -/
theorem commaLines_eq_spec (nel : List (List Char)) :
    (((nel.map fun line => line.count ',').filter
        fun count => 0 < count)).length = specCommaLineCount nel := by
  rw [← List.countP_eq_length_filter, List.countP_map]
  rfl

/-- The code's filtered consistent-line count equals the spec's count of
lines matching the header's comma count, on a non-empty line list. -/
theorem consistentLines_eq_spec (a : List Char) (t : List (List Char)) :
    ((((a :: t).map fun line => line.count ',').filter
        fun count =>
          count = (((a :: t).map fun line => line.count ',').headD 0)).length) =
      specConsistentCount (a :: t) := by
  rw [← List.countP_eq_length_filter]
  simp only [List.map_cons, List.headD_cons]
  rw [show ((fun line => line.count ',') a) :: ((t.map fun line => line.count ','))
      = ((a :: t).map fun line => line.count ',') from rfl]
  rw [List.countP_map]
  rfl

/-! ## Claims -/

/-- C1 (amended): for UTF-8-decodable content with at least two non-empty
trimmed lines, the CSV heuristic declares CSV true iff the 80% comma-line
ratio, the header-comma requirement, the 70% consistency ratio, and at
least one corroborating hint all hold — where the hints are the `.csv`
filename suffix, the keyword occurrence in the first 200 lowercased
characters, or (libmagic variant only) the secondary magic buffer
detection having flagged csv (`magicFlag`; `false` in the puremagic
variant, where the original claim's hint list is exhaustive). -/
theorem c1_csvHeuristic_iff_spec (bytes : List Nat)
    (content_str filename : List Char) (magicFlag : Bool)
    (hdec : utf8Decode bytes = some content_str)
    (hlines : 2 ≤ (nonEmptyLines content_str).length) :
    contentCsvAnalysis content_str filename magicFlag = true ↔
      specCsvDeclared content_str filename magicFlag := by
  have hgate : 2 ≤ (splitOnNewline (pyStrip content_str)).length :=
    le_trans hlines (List.length_filterMap_le _ _)
  rw [contentCsvAnalysis, if_pos hgate, if_pos hlines]
  rw [csvCriteriaMet, specCsvDeclared]
  rcases hne : nonEmptyLines content_str with _ | ⟨a, t⟩
  · simp [hne] at hlines
  · rw [commaLines_eq_spec, consistentLines_eq_spec]
    simp only [Bool.and_eq_true, Bool.or_eq_true, decide_eq_true_eq,
      List.any_eq_true, List.isSuffixOf_iff_suffix, containsSub_eq_true_iff,
      List.map_cons, List.headD_cons, specHeaderCommas, specFilenameHint,
      specKeywordHint]
    constructor
    · rintro ⟨⟨⟨h1, h2⟩, h3⟩, h4⟩
      exact ⟨by omega, h2, by omega, or_assoc.mp h4⟩
    · rintro ⟨h1, h2, h3, h4⟩
      exact ⟨⟨⟨by omega, h2⟩, by omega⟩, or_assoc.mpr h4⟩

/-- C1 witness: the heuristic fires on a concrete well-formed CSV. -/
theorem c1_witness :
    utf8Decode (asciiBytes "name,age,city\nJohn,30,NYC\nJane,25,LA") =
        some (chars "name,age,city\nJohn,30,NYC\nJane,25,LA") ∧
    2 ≤ (nonEmptyLines (chars "name,age,city\nJohn,30,NYC\nJane,25,LA")).length ∧
    contentCsvAnalysis (chars "name,age,city\nJohn,30,NYC\nJane,25,LA")
      (chars "data.csv") false = true :=
  ⟨by decide, by decide,
    (c1_csvHeuristic_iff_spec
        (asciiBytes "name,age,city\nJohn,30,NYC\nJane,25,LA")
        (chars "name,age,city\nJohn,30,NYC\nJane,25,LA")
        (chars "data.csv") false (by decide) (by decide)).mpr
      (by simp only [specCsvDeclared, specCommaLineCount, specHeaderCommas,
            specConsistentCount, specFilenameHint, specKeywordHint]
          decide)⟩

/-- C1 counterexample: in the libmagic variant, when the secondary magic
buffer detection mentions csv, the heuristic declares CSV true although
neither the filename hint nor the keyword hint of the claim's hint list
holds, refuting the claimed "if and only if" as stated. -/
theorem c1_counterexample :
    utf8Decode (asciiBytes "a,b\nc,d") = some (chars "a,b\nc,d") ∧
    2 ≤ (nonEmptyLines (chars "a,b\nc,d")).length ∧
    strStartsWith "text/plain" "text/" = true ∧
    (classifyMagic "text/plain" (some ("text/csv", "CSV text"))
        (asciiBytes "a,b\nc,d") (chars "data.txt")).is_csv = true ∧
    ¬ specFilenameHint (chars "data.txt") ∧
    ¬ specKeywordHint (chars "a,b\nc,d") := by
  refine ⟨by decide, by decide, by decide, by decide, ?_, ?_⟩
  · simp only [specFilenameHint]
    decide
  · simp only [specKeywordHint]
    decide

/-- C2 (amended): in the puremagic variant, whenever the derived MIME type
begins with `text/` and the CSV structural heuristic evaluates to true on
the decoded content, the verdict is `is_csv = true` with the MIME type
overridden to `text/csv`.  (In the libmagic variant `is_csv` becomes true
but the returned MIME type is not overridden by the heuristic.) -/
theorem c2_textBranch_override (detected_type : Option (List Char))
    (bytes : List Nat) (filename content_str : List Char)
    (hmime : strStartsWith (deriveMimetype detected_type bytes) "text/" = true)
    (hdec : utf8Decode bytes = some content_str)
    (hcsv : contentCsvAnalysis content_str filename false = true) :
    classifyCore detected_type bytes filename = (true, "text/csv") := by
  unfold classifyCore
  have hcond : (decide (deriveMimetype detected_type bytes = "text/plain") ||
      strStartsWith (deriveMimetype detected_type bytes) "text/") = true := by
    simp [hmime]
  rw [if_pos hcond, hdec]
  dsimp only
  rw [if_pos hcsv]

/-- C2 witness: the claim's concrete example, in the puremagic variant
with no signature label (the UTF-8 probe yields `text/plain`). -/
theorem c2_witness :
    strStartsWith
        (deriveMimetype none (asciiBytes "name,age,city\nJohn,30,NYC\nJane,25,LA"))
        "text/" = true ∧
    classifyCore none (asciiBytes "name,age,city\nJohn,30,NYC\nJane,25,LA")
        (chars "data.csv") = (true, "text/csv") :=
  ⟨by decide,
    c2_textBranch_override none
      (asciiBytes "name,age,city\nJohn,30,NYC\nJane,25,LA")
      (chars "data.csv") (chars "name,age,city\nJohn,30,NYC\nJane,25,LA")
      (by decide) (by decide) (by decide)⟩

/-- C2 counterexample: on the claim's own concrete input, the libmagic
variant (with the signature stage reporting `text/plain` and the
secondary magic call unavailable) sets `is_csv = true` but returns
mimetype `text/plain`, not `text/csv`: the heuristic does not override
the MIME type there, refuting the claim for that variant. -/
theorem c2_counterexample :
    strStartsWith "text/plain" "text/" = true ∧
    contentCsvAnalysis (chars "name,age,city\nJohn,30,NYC\nJane,25,LA")
        (chars "data.csv") false = true ∧
    (classifyMagic "text/plain" none
        (asciiBytes "name,age,city\nJohn,30,NYC\nJane,25,LA")
        (chars "data.csv")).is_csv = true ∧
    (classifyMagic "text/plain" none
        (asciiBytes "name,age,city\nJohn,30,NYC\nJane,25,LA")
        (chars "data.csv")).mimetype = "text/plain" ∧
    (classifyMagic "text/plain" none
        (asciiBytes "name,age,city\nJohn,30,NYC\nJane,25,LA")
        (chars "data.csv")).mimetype ≠ "text/csv" := by
  refine ⟨by decide, by decide, by decide, by decide, by decide⟩

/-- C3 (amended): a MIME type in the already-CSV set makes the initial
`is_csv` true, and it stays true whenever the bytes decode as UTF-8 (the
heuristic can only confirm); `application/csv` does not start with
`text/`, so for it the content branch is fully skipped and the verdict is
`is_csv = true` with the MIME unchanged, independent of the content.  But
for `text/csv` and `text/comma-separated-values` (which start with
`text/`) the content branch still runs, so a UTF-8 decode failure resets
`is_csv` to false — the heuristic is not skipped as claimed. -/
theorem c3_csvMimetype_immediate (detected_mimetype : String)
    (alt : Option (String × String)) (bytes : List Nat)
    (filename content_str : List Char)
    (hmem : detected_mimetype ∈ csvMimetypes)
    (hdec : utf8Decode bytes = some content_str) :
    (classifyMagic detected_mimetype alt bytes filename).is_csv = true ∧
    classifyMagic "application/csv" alt bytes filename =
      ⟨true, "application/csv"⟩ := by
  constructor
  · simp only [csvMimetypes, List.mem_cons, List.not_mem_nil, or_false] at hmem
    rcases hmem with h | h | h <;> subst h
    · unfold classifyMagic
      rw [if_pos (by decide), hdec]
      dsimp only
      split <;> rfl
    · unfold classifyMagic
      rw [if_neg (by decide)]
      rfl
    · unfold classifyMagic
      rw [if_pos (by decide), hdec]
      dsimp only
      split <;> rfl
  · rfl

/-- C3 witness: `text/csv` from the signature stage with decodable
non-CSV-shaped content still yields `is_csv = true`. -/
theorem c3_witness :
    "text/csv" ∈ csvMimetypes ∧
    utf8Decode (asciiBytes "hello") = some (chars "hello") ∧
    (classifyMagic "text/csv" none (asciiBytes "hello")
        (chars "x.bin")).is_csv = true :=
  ⟨by decide, by decide,
    (c3_csvMimetype_immediate "text/csv" none (asciiBytes "hello")
        (chars "x.bin") (chars "hello") (by decide) (by decide)).1⟩

/-- C3 counterexample: with `text/csv` straight from the signature stage
but non-UTF-8 bytes, the content branch runs, the decode fails and
`is_csv` is reset to false — the verdict does depend on UTF-8
decodability, refuting the claim. -/
theorem c3_counterexample :
    "text/csv" ∈ csvMimetypes ∧
    utf8Decode [0xFF] = none ∧
    (classifyMagic "text/csv" none [0xFF] (chars "data.csv")).is_csv
      = false := by
  refine ⟨by decide, by decide, by decide⟩

/-- C4: when the derived MIME type begins with `text/` and the bytes are
not valid UTF-8, the decode failure is absorbed locally (the classifiers
are total functions), the verdict has `is_csv = false`, and the MIME type
is exactly the one derived by the earlier stages: in the puremagic
variant the mapped MIME, in the libmagic variant the signature MIME as
possibly rewritten by the earlier secondary buffer stage (unchanged, in
particular, when that stage was unavailable). -/
theorem c4_decodeFailure_absorbed (detected_type : Option (List Char))
    (detected_mimetype : String) (alt : Option (String × String))
    (bytes : List Nat) (filename : List Char)
    (hdec : utf8Decode bytes = none) :
    (strStartsWith (deriveMimetype detected_type bytes) "text/" = true →
      classifyCore detected_type bytes filename =
        (false, deriveMimetype detected_type bytes)) ∧
    (strStartsWith detected_mimetype "text/" = true →
      classifyMagic detected_mimetype alt bytes filename =
        ⟨false, (magicAltOverride detected_mimetype alt).2⟩ ∧
      (magicAltOverride detected_mimetype none).2 = detected_mimetype) := by
  constructor
  · intro hmime
    unfold classifyCore
    rw [if_pos (by simp [hmime]), hdec]
  · intro hmime
    refine ⟨?_, rfl⟩
    unfold classifyMagic
    rw [if_pos (by simp [hmime]), hdec]

/-- C4 witness: a lone `0xFF` byte with a text-probing label. -/
theorem c4_witness :
    utf8Decode [0xFF] = none ∧
    strStartsWith (deriveMimetype (some (chars "text")) [0xFF]) "text/" = true ∧
    classifyCore (some (chars "text")) [0xFF] (chars "data.csv") =
      (false, deriveMimetype (some (chars "text")) [0xFF]) ∧
    classifyMagic "text/plain" none [0xFF] (chars "data.csv") =
      ⟨false, "text/plain"⟩ :=
  ⟨by decide, by decide,
    (c4_decodeFailure_absorbed (some (chars "text")) "text/plain" none
        [0xFF] (chars "data.csv") (by decide)).1 (by decide),
    ((c4_decodeFailure_absorbed (some (chars "text")) "text/plain" none
        [0xFF] (chars "data.csv") (by decide)).2 (by decide)).1⟩

/-- C5 (amended): for the empty byte buffer (on which the detector
produces no label) and any filename, the puremagic variant returns
`is_csv = false` and no exception, but the MIME type is `text/plain`,
not `application/octet-stream`: the empty buffer decodes as (empty)
UTF-8, so the text probe reports `text/plain`, and the content analysis
is skipped by the line-count gate. -/
theorem c5_emptyBuffer (filename : List Char)
    (buffer_type : Option (List Char)) :
    classifyPure none buffer_type [] filename =
      ⟨false, "text/plain", none, buffer_type⟩ := rfl

/-- C5 counterexample: on the empty buffer the returned MIME type is
`text/plain`, refuting the claimed `application/octet-stream`. -/
theorem c5_counterexample :
    (classifyPure none none [] (chars "empty.csv")).is_csv = false ∧
    (classifyPure none none [] (chars "empty.csv")).mimetype = "text/plain" ∧
    (classifyPure none none [] (chars "empty.csv")).mimetype ≠
      "application/octet-stream" := by
  refine ⟨by decide, by decide, by decide⟩

/-- C6 (amended): the mapper is total and probes the buffer for UTF-8
decodability only when the detector produced no (truthy) label — yielding
`text/plain` on success and `application/octet-stream` on failure; when a
truthy label matched none of the mapping keywords, the mapper returns
`application/octet-stream` without probing the buffer, contrary to the
claimed fallback chain. -/
theorem c6_mapper_fallback (detected_type : Option (List Char))
    (bytes : List Nat) (label : List Char) :
    (truthy detected_type = false →
      deriveMimetype detected_type bytes =
        match utf8Decode bytes with
        | some _ => "text/plain"
        | none => "application/octet-stream") ∧
    (detected_type = some label → truthy detected_type = true →
      (∀ keyword ∈ mapperKeywords, ¬ keyword <:+: pyLower label) →
      deriveMimetype detected_type bytes = "application/octet-stream") := by
  constructor
  · intro hfalsy
    unfold deriveMimetype
    rw [hfalsy]
    rfl
  · intro hlabel htruthy hnokw
    subst hlabel
    have hsub : ∀ keyword ∈ mapperKeywords,
        containsSub (pyLower label) keyword = false := by
      intro kw hkw
      rcases h : containsSub (pyLower label) kw with _ | _
      · rfl
      · exact absurd (containsSub_eq_true_iff.mp h) (hnokw kw hkw)
    unfold deriveMimetype
    rw [htruthy]
    simp only [Option.getD_some, Bool.not_true, Bool.false_eq_true,
      if_false]
    simp only [hsub (chars "pdf") (by decide), hsub (chars "jpeg") (by decide),
      hsub (chars "jpg") (by decide), hsub (chars "png") (by decide),
      hsub (chars "text") (by decide), hsub (chars "html") (by decide),
      hsub (chars "xml") (by decide), hsub (chars "json") (by decide)]
    simp

/-- C6 witness: a label matching no mapping keyword, over decodable
bytes, maps to `application/octet-stream` (no probe), and an absent label
over the same bytes probes to `text/plain`. -/
theorem c6_witness :
    utf8Decode (asciiBytes "hello") = some (chars "hello") ∧
    deriveMimetype (some (chars "zip")) (asciiBytes "hello") =
      "application/octet-stream" ∧
    deriveMimetype none (asciiBytes "hello") = "text/plain" :=
  ⟨by decide,
    (c6_mapper_fallback (some (chars "zip")) (asciiBytes "hello")
        (chars "zip")).2 rfl (by decide)
      (by intro kw hkw
          fin_cases hkw <;> decide),
    by
      have h := (c6_mapper_fallback none (asciiBytes "hello")
        (chars "zip")).1 rfl
      rw [h]
      decide⟩

/-- C6 counterexample: a truthy label (`zip`) matching no mapping keyword
yields `application/octet-stream` even though the buffer decodes as
UTF-8, refuting the claimed probe-on-keyword-miss step of the fallback
chain. -/
theorem c6_counterexample :
    truthy (some (chars "zip")) = true ∧
    utf8Decode (asciiBytes "hello") = some (chars "hello") ∧
    deriveMimetype (some (chars "zip")) (asciiBytes "hello") =
      "application/octet-stream" ∧
    deriveMimetype (some (chars "zip")) (asciiBytes "hello") ≠
      "text/plain" := by
  refine ⟨by decide, by decide, by decide, by decide⟩

/-- The puremagic mapper can only produce MIME strings of the closed
output set. -/
theorem deriveMimetype_mem (detected_type : Option (List Char))
    (bytes : List Nat) :
    deriveMimetype detected_type bytes ∈ mimeOutputs := by
  simp only [deriveMimetype]
  repeat' split
  all_goals decide

/-- The secondary-detection stage of the libmagic variant either keeps
the signature MIME or rewrites it to `text/csv`. -/
theorem magicAltOverride_snd (detected_mimetype : String)
    (alt : Option (String × String)) :
    (magicAltOverride detected_mimetype alt).2 = detected_mimetype ∨
      (magicAltOverride detected_mimetype alt).2 = "text/csv" := by
  unfold magicAltOverride
  rcases alt with _ | bd
  · exact Or.inl rfl
  · dsimp only
    split
    · exact Or.inr rfl
    · exact Or.inl rfl

/-- C7: for every detector output, byte buffer and filename, the returned
MIME type is never empty: the puremagic variant always returns one of a
fixed finite set of non-empty MIME strings, and the libmagic variant
returns either the signature-derived MIME or `text/csv`. -/
theorem c7_mimetype_wellformed (detected_type buffer_type : Option (List Char))
    (detected_mimetype : String) (alt : Option (String × String))
    (bytes : List Nat) (filename : List Char) :
    ((classifyPure detected_type buffer_type bytes filename).mimetype ∈
        mimeOutputs ∧
      (classifyPure detected_type buffer_type bytes filename).mimetype ≠ "") ∧
    ((classifyMagic detected_mimetype alt bytes filename).mimetype =
        detected_mimetype ∨
      (classifyMagic detected_mimetype alt bytes filename).mimetype =
        "text/csv") := by
  have hmem : (classifyPure detected_type buffer_type bytes
      filename).mimetype ∈ mimeOutputs := by
    show (classifyCore detected_type bytes filename).2 ∈ mimeOutputs
    simp only [classifyCore]
    repeat' split
    all_goals first
      | decide
      | exact deriveMimetype_mem detected_type bytes
  refine ⟨⟨hmem, ?_⟩, ?_⟩
  · simp only [mimeOutputs, List.mem_cons, List.not_mem_nil, or_false]
      at hmem
    rcases hmem with h | h | h | h | h | h | h | h | h <;> rw [h] <;> decide
  · show ((classifyMagic detected_mimetype alt bytes filename).mimetype = _) ∨ _
    simp only [classifyMagic]
    split
    · split
      · split
        · exact magicAltOverride_snd detected_mimetype alt
        · exact magicAltOverride_snd detected_mimetype alt
      · exact magicAltOverride_snd detected_mimetype alt
    · exact Or.inl rfl

/-- C8 (amended): the secondary buffer-based detection of the puremagic
variant is diagnostic-only — for a fixed raw signature label, bytes and
filename, the verdict (`is_csv`, mimetype) is independent of it; the raw
signature label, however, although also exposed in the diagnostic detail
payload, does determine the verdict, and in the libmagic variant the
secondary buffer-based detection can change the returned MIME type. -/
theorem c8_bufferDetail_irrelevant (detected_type bt1 bt2 : Option (List Char))
    (bytes : List Nat) (filename : List Char) :
    (classifyPure detected_type bt1 bytes filename).is_csv =
        (classifyPure detected_type bt2 bytes filename).is_csv ∧
    (classifyPure detected_type bt1 bytes filename).mimetype =
        (classifyPure detected_type bt2 bytes filename).mimetype :=
  ⟨rfl, rfl⟩

/-- C8 counterexample: two runs on the same bytes and filename that
differ only in the raw signature label — a signal exposed in the
diagnostic detail payload — produce different MIME types, refuting the
claim that the detail signals never affect the verdict. -/
theorem c8_counterexample :
    (classifyPure (some (chars "pdf")) none (asciiBytes "x")
        (chars "f")).buffer_detection =
      (classifyPure (some (chars "png")) none (asciiBytes "x")
        (chars "f")).buffer_detection ∧
    (classifyPure (some (chars "pdf")) none (asciiBytes "x")
        (chars "f")).mimetype = "application/pdf" ∧
    (classifyPure (some (chars "png")) none (asciiBytes "x")
        (chars "f")).mimetype = "image/png" ∧
    (classifyPure (some (chars "pdf")) none (asciiBytes "x")
        (chars "f")).mimetype ≠
      (classifyPure (some (chars "png")) none (asciiBytes "x")
        (chars "f")).mimetype := by
  refine ⟨by decide, by decide, by decide, by decide⟩

/-- C9: on UTF-8-decodable content whose trimmed line list has fewer than
two non-empty lines, the CSV heuristic returns false for any filename
(and any value of the libmagic extra hint). -/
theorem c9_tooFewLines (bytes : List Nat) (content_str filename : List Char)
    (magicFlag : Bool) (hdec : utf8Decode bytes = some content_str)
    (hshort : (nonEmptyLines content_str).length < 2) :
    contentCsvAnalysis content_str filename magicFlag = false := by
  unfold contentCsvAnalysis
  split
  · rw [if_neg (by omega)]
  · rfl

/-- C9 witness: the single-line header-only buffer. -/
theorem c9_witness :
    utf8Decode (asciiBytes "name,age,city") = some (chars "name,age,city") ∧
    (nonEmptyLines (chars "name,age,city")).length < 2 ∧
    contentCsvAnalysis (chars "name,age,city") (chars "header_only.csv")
      false = false :=
  ⟨by decide, by decide,
    c9_tooFewLines (asciiBytes "name,age,city") (chars "name,age,city")
      (chars "header_only.csv") false (by decide) (by decide)⟩

/-- C10: for UTF-8-decodable bytes in the `text/` branch the content
stage is monotone on `is_csv`: in the libmagic variant an initially true
`is_csv` (MIME in the CSV set) stays true, and in the puremagic variant
the resulting `is_csv` is the disjunction of the initial value with the
heuristic — the stage can only turn `is_csv` from false to true, since
the only falsifying path is the decode failure, unreachable here. -/
theorem c10_textStage_monotone (detected_type : Option (List Char))
    (detected_mimetype : String) (alt : Option (String × String))
    (bytes : List Nat) (filename content_str : List Char)
    (hdec : utf8Decode bytes = some content_str) :
    (csvMimetypes.contains detected_mimetype = true →
      (classifyMagic detected_mimetype alt bytes filename).is_csv = true) ∧
    (strStartsWith (deriveMimetype detected_type bytes) "text/" = true →
      (classifyCore detected_type bytes filename).1 =
        (csvMimetypes.contains (deriveMimetype detected_type bytes) ||
          contentCsvAnalysis content_str filename false)) := by
  constructor
  · intro h0
    unfold classifyMagic
    split
    · rw [hdec]
      dsimp only
      split
      · rfl
      · exact h0
    · exact h0
  · intro hmime
    unfold classifyCore
    rw [if_pos (by simp [hmime]), hdec]
    dsimp only
    split
    next h => rw [h, Bool.or_true]
    next h =>
      rw [Bool.not_eq_true] at h
      rw [h, Bool.or_false]

/-- C10 witness: `text/csv` from the signature stage over decodable bytes
keeps `is_csv = true` through the content stage, and the puremagic text
branch computes the disjunction on a concrete decodable buffer. -/
theorem c10_witness :
    csvMimetypes.contains "text/csv" = true ∧
    utf8Decode (asciiBytes "hello") = some (chars "hello") ∧
    (classifyMagic "text/csv" none (asciiBytes "hello")
        (chars "f.bin")).is_csv = true ∧
    (classifyCore none (asciiBytes "hello") (chars "f.bin")).1 =
      (csvMimetypes.contains (deriveMimetype none (asciiBytes "hello")) ||
        contentCsvAnalysis (chars "hello") (chars "f.bin") false) :=
  ⟨by decide, by decide,
    (c10_textStage_monotone none "text/csv" none (asciiBytes "hello")
        (chars "f.bin") (chars "hello") (by decide)).1 (by decide),
    (c10_textStage_monotone none "text/csv" none (asciiBytes "hello")
        (chars "f.bin") (chars "hello") (by decide)).2 (by decide)⟩
